import Mathlib

/-!
Shallow embedding of the profile-resolution and process-launch core of the
firefox-profile-switcher-connector repository (src/cmd/initialize.rs,
src/process.rs, src/config.rs).

Filesystem reads, environment-variable reads and OS process primitives are
external effects; they are modelled as explicit function parameters:
  * a directory listing `fs : ProfileEntry → Option (List String)` giving, for
    each profile, the child-entry names of its `<path>/storage/default`
    directory (`none` models a `read_dir` error);
  * an existence predicate `fsExists : String → Bool` over absolute paths;
  * an environment lookup result `Except VarError String`;
  * the fork/wait outcome of the POSIX double fork.
Rust strings are Lean `String`; Rust `str::starts_with` is `rust_starts_with`
below (byte/character-prefix test, as in Rust).
-/

/-- Models `std::env::VarError`. -/
inductive VarError where
  | NotPresent
  | NotUnicode (s : String)
deriving DecidableEq

/-- Rust `str::starts_with` for string patterns: character-sequence prefix. -/
def rust_starts_with (s pat : String) : Bool :=
  pat.data.isPrefixOf s.data

/-- One entry of `ProfilesIniState::profile_entries` (fields as used by the
core: `id`, `name`, the storage `path`, and the `default` flag). -/
structure ProfileEntry where
  id : String
  name : String
  path : String
  default : Bool
deriving DecidableEq

/-- The `AppState` fields mutated/read by `process_cmd_initialize` and
`finish_init`.  The parsed semver is modelled as the successfully-parsed
version string. -/
structure AppState where
  first_run : Bool
  cur_profile_id : Option String
  internal_extension_id : Option String
  extension_version : Option String
deriving DecidableEq

/-- `NativeMessageInitialize` (src/native_req): optional caller-supplied
profile id, extension id, optional extension version string. -/
structure NativeMessageInitialize where
  profile_id : Option String
  extension_id : String
  extension_version : Option String

/-- The `NativeResponseData` variant produced by initialization. -/
inductive NativeResponseData where
  | Initialized (cached : Bool)
deriving DecidableEq

/-- `NativeResponse::success` / `NativeResponse::error`. -/
inductive NativeResponse where
  | success (data : NativeResponseData)
  | error (message : String)
deriving DecidableEq

/-- `EXTENSION_STORAGE_PREFIXES` from src/cmd/initialize.rs: Firefox,
LibreWolf, Waterfox and Zen Browser all use the same literal prefix string. -/
def EXTENSION_STORAGE_PREFIXES : List String :=
  ["moz-extension+++", "moz-extension+++", "moz-extension+++", "moz-extension+++"]

/-- The per-profile probe in `process_cmd_initialize`'s scan loop: list the
profile's `storage/default` directory (a failed `read_dir` means `false`,
i.e. the profile is skipped as a non-match) and test whether any child entry
name starts with `<pfx><extension_id>` for one of the known storage-key
prefixes. -/
def extInstalled (fs : ProfileEntry → Option (List String)) (extId : String)
    (p : ProfileEntry) : Bool :=
  match fs p with
  | none => false
  | some entries =>
    entries.any (fun entryName =>
      EXTENSION_STORAGE_PREFIXES.any (fun pfx =>
        rust_starts_with entryName (pfx ++ extId)))

/-- `profiles.iter_mut().find(|p| p.id == profile_id)` followed by
`profile.default = true`: set the `default` flag of the FIRST entry whose id
matches, leaving every other entry (including later duplicates of the same
id) untouched. -/
def setFirstMatchDefault (pid : String) : List ProfileEntry → List ProfileEntry
  | [] => []
  | p :: rest =>
    if p.id = pid then { p with default := true } :: rest
    else p :: setFirstMatchDefault pid rest

/-- The `for other_profile in profiles.iter_mut()` loop in `finish_init`:
clear the `default` flag of every entry whose id differs from `profile_id`. -/
def clearOtherDefaults (pid : String) (l : List ProfileEntry) : List ProfileEntry :=
  l.map (fun p => if p.id ≠ pid then { p with default := false } else p)

/-- Result of `finish_init`: the mutated `AppState`, the (possibly mutated)
profile list, and whether `write_profiles` was invoked to persist it. -/
structure FinishOutcome where
  state : AppState
  profiles : List ProfileEntry
  wrote_profiles : Bool
deriving DecidableEq

/-- `finish_init` from src/cmd/initialize.rs.  `parse_ok` models
`semver::Version::parse(..).ok().is_some()` (an unparsable version string is
silently dropped).  The ProfileList event and options notification are pure
outputs to the message channel and are not part of the mutated state. -/
def finish_init (parse_ok : String → Bool) (s : AppState)
    (profiles : List ProfileEntry) (profile_id : String)
    (internal_ext_id : String) (ext_version : Option String) : FinishOutcome :=
  let s1 : AppState :=
    { s with
      cur_profile_id := some profile_id,
      internal_extension_id := some internal_ext_id,
      extension_version :=
        ext_version.bind (fun v => if parse_ok v then some v else none) }
  if s1.first_run then
    let s2 := { s1 with first_run := false }
    if profiles.any (fun p => p.id == profile_id) then
      { state := s2,
        profiles := clearOtherDefaults profile_id (setFirstMatchDefault profile_id profiles),
        wrote_profiles := true }
    else
      -- "Failed to find first-run profile to set as default" branch:
      -- only a log line, no mutation of the profile list, no write.
      { state := s2, profiles := profiles, wrote_profiles := false }
  else
    { state := s1, profiles := profiles, wrote_profiles := false }

/-- Result of `process_cmd_initialize`: the native response plus the final
state, profile list and persistence flag. -/
structure InitOutcome where
  response : NativeResponse
  state : AppState
  profiles : List ProfileEntry
  wrote_profiles : Bool
deriving DecidableEq

/-- The `for profile in &profiles.profile_entries` scan loop of
`process_cmd_initialize`: `allProfiles` is the full collection handed to
`finish_init` once a match is found; the recursion walks the remaining
entries. -/
def initScan (parse_ok : String → Bool) (fs : ProfileEntry → Option (List String))
    (s : AppState) (allProfiles : List ProfileEntry)
    (msg : NativeMessageInitialize) : List ProfileEntry → InitOutcome
  | [] =>
    { response := .error "Unable to detect current profile.",
      state := s, profiles := allProfiles, wrote_profiles := false }
  | p :: rest =>
    if extInstalled fs msg.extension_id p then
      let r := finish_init parse_ok s allProfiles p.id msg.extension_id msg.extension_version
      { response := .success (.Initialized false),
        state := r.state, profiles := r.profiles, wrote_profiles := r.wrote_profiles }
    else initScan parse_ok fs s allProfiles msg rest

/-- `process_cmd_initialize` from src/cmd/initialize.rs. -/
def process_cmd_initialize (parse_ok : String → Bool)
    (fs : ProfileEntry → Option (List String)) (s : AppState)
    (profiles : List ProfileEntry) (msg : NativeMessageInitialize) : InitOutcome :=
  match msg.profile_id with
  | some pid =>
    let r := finish_init parse_ok s profiles pid msg.extension_id msg.extension_version
    { response := .success (.Initialized true),
      state := r.state, profiles := r.profiles, wrote_profiles := r.wrote_profiles }
  | none => initScan parse_ok fs s profiles msg profiles

/-- `ForkBrowserProcError` from src/process.rs (error payloads that wrap OS
errors are modelled as their display strings). -/
inductive ForkBrowserProcError where
  | BadExitCode
  | ForkError (error_message : String)
  | ProcessLaunchError (error_message : String)
  | MSIXProcessLaunchError (error_message : String)
  | BinaryNotFound
  | BinaryDoesNotExist
  | COMError (error_message : String)
deriving DecidableEq

/-- `GetParentProcError` from src/process.rs. -/
inductive GetParentProcError where
  | NoCrashReporterEnvVar (e : VarError)
  | LinuxOpenCurProcFailed (msg : String)
  | LinuxFailedToParsePidString (s : String)
  | LinuxCouldNotFindPPid
  | LinuxResolveParentExeFailed (msg : String)
deriving DecidableEq

/-- `BROWSER_EXECUTABLES` from src/process.rs. -/
def BROWSER_EXECUTABLES : List String :=
  ["firefox", "librewolf", "waterfox", "zen-browser"]

/-- The three standard install locations probed per browser on the unix
branch of `find_browser_binary`. -/
def standardPaths (browser : String) : List String :=
  ["/usr/bin/" ++ browser, "/usr/local/bin/" ++ browser, "/snap/bin/" ++ browser]

/-- The per-browser flatpak location probed on the unix branch of
`find_browser_binary` (Zen Browser has none). -/
def flatpakPath (browser : String) : Option String :=
  if browser = "firefox" then
    some "/var/lib/flatpak/app/org.mozilla.firefox/current/active/files/bin/firefox"
  else if browser = "librewolf" then
    some "/var/lib/flatpak/app/io.gitlab.librewolf-community/current/active/files/bin/librewolf"
  else if browser = "waterfox" then
    some "/var/lib/flatpak/app/net.waterfox.waterfox/current/active/files/bin/waterfox"
  else none

/-- The body of `find_browser_binary`'s outer loop for one browser: first
existing standard path, else the flatpak path when it exists. -/
def findForBrowser (fsExists : String → Bool) (browser : String) : Option String :=
  match (standardPaths browser).find? fsExists with
  | some p => some p
  | none =>
    match flatpakPath browser with
    | some fp => if fsExists fp then some fp else none
    | none => none

/-- `find_browser_binary` (unix branch of the cfg_if) from src/process.rs:
the well-known-location table, probed in fixed browser order and fixed path
order; the first existing path wins. -/
def find_browser_binary (fsExists : String → Bool) : Option String :=
  BROWSER_EXECUTABLES.findSome? (findForBrowser fsExists)

/-- `build_browser_args` from src/process.rs. -/
def build_browser_args (profile_name : String) (url : Option String) : List String :=
  ["-P", profile_name] ++ (match url with | some u => ["--new-tab", u] | none => [])

/-- The binary-selection expression of `fork_browser_proc`
(src/process.rs:170-179): explicit configured binary first, then the parent
process inspector's cached result, then the well-known-location table;
`none` when all three yield nothing (the `BinaryNotFound` case). -/
def selectBinary (cfgBinary : Option String)
    (parentProc : Except GetParentProcError String)
    (fsExists : String → Bool) : Option String :=
  match cfgBinary with
  | some v => some v
  | none =>
    match parentProc with
    | .ok v => some v
    | .error _ => find_browser_binary fsExists

/-- `fork_browser_proc` from src/process.rs, after the Windows-only MSIX
branch (which is not compiled on this, the unix, branch of the cfg_if).
`launch` models `launch_browser_process`, i.e. the OS side of the launch. -/
def fork_browser_proc (cfgBinary : Option String)
    (parentProc : Except GetParentProcError String)
    (fsExists : String → Bool)
    (launch : String → List String → Except ForkBrowserProcError Unit)
    (profile_name : String) (url : Option String) :
    Except ForkBrowserProcError Unit :=
  match selectBinary cfgBinary parentProc fsExists with
  | none => .error .BinaryNotFound
  | some parent_proc =>
    if fsExists parent_proc then
      launch parent_proc (build_browser_args profile_name url)
    else
      match find_browser_binary fsExists with
      | some alt_binary =>
        if fsExists alt_binary then
          launch alt_binary (build_browser_args profile_name url)
        else .error .BinaryDoesNotExist
      | none => .error .BinaryDoesNotExist

/-- `nix::sys::wait::WaitStatus`, as matched by `launch_browser_process`:
only `Exited(_, 0)` is distinguished; every other constructor falls into the
wildcard arm. -/
inductive WaitStatus where
  | Exited (pid : Int) (code : Int)
  | Signaled (pid : Int) (signal : Int) (core_dumped : Bool)
  | Stopped (pid : Int) (signal : Int)
  | Continued (pid : Int)
  | StillAlive
deriving DecidableEq

/-- Outcome of the `fork()` call as seen by the original (parent) process:
either the fork itself failed, or we are the parent and `waitpid` on the
immediate child returned the given result (`Except.error` models a `waitpid`
error). -/
inductive ForkOutcome where
  | forkFailed (error_message : String)
  | parentWaited (w : Except String WaitStatus)

/-- The parent-side classification in `launch_browser_process` (unix branch,
src/process.rs:212-235): fork error maps to `ForkError`; a wait result of
`Ok(Exited(_, 0))` maps to success; every other wait outcome maps to
`BadExitCode`. -/
def launch_browser_process (outcome : ForkOutcome) : Except ForkBrowserProcError Unit :=
  match outcome with
  | .forkFailed e => .error (.ForkError e)
  | .parentWaited (.ok (.Exited _ 0)) => .ok ()
  | .parentWaited _ => .error .BadExitCode

/-- The immediate child's exit code in `launch_browser_process`: 0 when
`setsid` and the grandchild spawn both succeed, 1 when the spawn fails,
2 when `setsid` fails. -/
def childExitCode (setsidOk spawnOk : Bool) : Int :=
  if setsidOk then (if spawnOk then 0 else 1) else 2

/-- `PARENT_PROC` from src/process.rs (the lazily-computed value; laziness is
process-lifetime memoization and does not change the computed value):
read `MOZ_CRASHREPORTER_RESTART_ARG_0` as a path; if it is set and the path
exists, return it; otherwise fall back to `find_browser_binary`; if that
yields nothing, return the original crash-reporter lookup result. -/
def PARENT_PROC (envVar : Except VarError String) (fsExists : String → Bool) :
    Except GetParentProcError String :=
  let crash_reporter_result : Except GetParentProcError String :=
    match envVar with
    | .ok s => .ok s
    | .error e => .error (.NoCrashReporterEnvVar e)
  match crash_reporter_result with
  | .ok path =>
    if fsExists path then crash_reporter_result
    else
      match find_browser_binary fsExists with
      | some browser_path => .ok browser_path
      | none => crash_reporter_result
  | .error _ =>
    match find_browser_binary fsExists with
    | some browser_path => .ok browser_path
    | none => crash_reporter_result

/-- `true` exactly on `Except.ok`. -/
def isOkResult : Except GetParentProcError String → Bool
  | .ok _ => true
  | .error _ => false

/-- The per-argument serialization of the MSIX activation branch
(src/process.rs:147): `a.replace('"', "\"\"\"")` — every literal double
quote becomes three double quotes (single-character pattern, so Rust's
left-to-right replace is a per-character map). -/
def escapeQuotes : List Char → List Char
  | [] => []
  | c :: rest =>
    if c = '"' then '"' :: '"' :: '"' :: escapeQuotes rest
    else c :: escapeQuotes rest

/-- The full per-argument quoting of the MSIX activation branch: surround the
escaped argument with double quotes. -/
def quoteActivationArg (a : String) : String :=
  ⟨'"' :: (escapeQuotes a.data ++ ['"'])⟩

/-- Modelled from the spec: the decoding the activated process applies to a
quoted argument — replace each run of three double quotes by one double
quote, left to right, non-overlapping. -/
def unescapeQuotes : List Char → List Char
  | '"' :: '"' :: '"' :: rest => '"' :: unescapeQuotes rest
  | c :: rest => c :: unescapeQuotes rest
  | [] => []

/-- Modelled from the spec: decode a quoted argument — strip the surrounding
double quotes, then collapse each triple double quote to one. -/
def decodeActivationArg (a : String) : String :=
  ⟨unescapeQuotes ((a.data.drop 1).dropLast)⟩

/-! ## Helper lemmas (shared across claims) -/

/-- `finish_init` always records the given profile id as the current one. -/
theorem finish_init_cur_profile_id (parse_ok : String → Bool) (s : AppState)
    (profiles : List ProfileEntry) (pid eid : String) (ver : Option String) :
    (finish_init parse_ok s profiles pid eid ver).state.cur_profile_id = some pid := by
  by_cases h : s.first_run
  · by_cases h2 : profiles.any (fun p => p.id == pid) <;> simp [finish_init, h, h2]
  · simp [finish_init, h]

/-- On a non-first-run state, `finish_init` leaves the profile list untouched
and does not persist it. -/
theorem finish_init_not_first_run (parse_ok : String → Bool) (s : AppState)
    (profiles : List ProfileEntry) (pid eid : String) (ver : Option String)
    (h : s.first_run = false) :
    (finish_init parse_ok s profiles pid eid ver).profiles = profiles
    ∧ (finish_init parse_ok s profiles pid eid ver).wrote_profiles = false := by
  constructor <;> simp [finish_init, h]

/-- The scan loop of `process_cmd_initialize` is `List.find?` of the
per-profile probe, followed by `finish_init` on a hit. -/
theorem initScan_spec (parse_ok : String → Bool)
    (fs : ProfileEntry → Option (List String)) (s : AppState)
    (allProfiles : List ProfileEntry) (msg : NativeMessageInitialize)
    (l : List ProfileEntry) :
    initScan parse_ok fs s allProfiles msg l =
      match l.find? (extInstalled fs msg.extension_id) with
      | some p =>
        let r := finish_init parse_ok s allProfiles p.id msg.extension_id
          msg.extension_version
        { response := .success (.Initialized false),
          state := r.state, profiles := r.profiles,
          wrote_profiles := r.wrote_profiles }
      | none =>
        { response := .error "Unable to detect current profile.",
          state := s, profiles := allProfiles, wrote_profiles := false } := by
  induction l with
  | nil => rfl
  | cons p rest ih =>
    by_cases h : extInstalled fs msg.extension_id p
    · simp [initScan, h, List.find?_cons_of_pos]
    · simp [initScan, h, List.find?_cons_of_neg, ih]

/-- A well-known-table hit is always an existing path. -/
theorem findForBrowser_exists (fsExists : String → Bool) (browser p : String)
    (h : findForBrowser fsExists browser = some p) : fsExists p = true := by
  unfold findForBrowser at h
  cases hf : (standardPaths browser).find? fsExists with
  | some q =>
    rw [hf] at h
    injection h with h
    subst h
    exact List.find?_some hf
  | none =>
    rw [hf] at h
    cases hfp : flatpakPath browser with
    | some fp =>
      rw [hfp] at h
      by_cases he : fsExists fp
      · simp only [he, if_true] at h
        injection h with h
        subst h
        exact he
      · simp [he] at h
    | none => rw [hfp] at h; exact absurd h (by simp)

/-- `find_browser_binary` only returns paths that exist. -/
theorem find_browser_binary_exists (fsExists : String → Bool) (p : String)
    (h : find_browser_binary fsExists = some p) : fsExists p = true := by
  unfold find_browser_binary at h
  obtain ⟨browser, _, hb⟩ := List.exists_of_findSome?_eq_some h
  exact findForBrowser_exists fsExists browser p hb

/-- Triple-quote escaping followed by triple-quote collapsing is the
identity. -/
theorem unescapeQuotes_escapeQuotes (l : List Char) :
    unescapeQuotes (escapeQuotes l) = l := by
  induction l with
  | nil => rfl
  | cons c rest ih =>
    by_cases h : c = '"'
    · subst h
      simp [escapeQuotes, unescapeQuotes, ih]
    · simp only [escapeQuotes, if_neg h]
      rw [unescapeQuotes.eq_def]
      split
      · rename_i heq
        injection heq with h1 _
        exact absurd h1 h
      · rename_i c2 rest2 heq
        injection heq with h1 h2
        subst h1
        rw [← h2, ih]
      · rename_i heq
        exact absurd heq (List.cons_ne_nil _ _)

theorem clearOther_all_false (P : String) (l : List ProfileEntry)
    (h : ∀ q ∈ l, q.id ≠ P) :
    ∀ q ∈ clearOtherDefaults P l, q.default = false := by
  intro q hq
  obtain ⟨r, hr, hrq⟩ := List.mem_map.mp hq
  rw [← hrq]
  simp [h r hr]

theorem uniqueDefault_after (P : String) (l : List ProfileEntry)
    (h : (l.filter (fun p => p.id == P)).length = 1) :
    ((clearOtherDefaults P (setFirstMatchDefault P l)).filter (fun p => p.default)).length = 1
    ∧ ∀ q ∈ clearOtherDefaults P (setFirstMatchDefault P l), q.default = true → q.id = P := by
  induction l with
  | nil => simp at h
  | cons p rest ih =>
    by_cases hp : p.id = P
    · have hrest0 : (rest.filter (fun q => q.id == P)).length = 0 := by
        have hbeq : (p.id == P) = true := by simp [hp]
        rw [List.filter_cons, if_pos hbeq, List.length_cons] at h
        omega
      have hnone : ∀ q ∈ rest, q.id ≠ P := by
        intro q hq hqe
        have hmem : q ∈ rest.filter (fun q => q.id == P) :=
          List.mem_filter.mpr ⟨hq, by simp [hqe]⟩
        rw [List.length_eq_zero] at hrest0
        rw [hrest0] at hmem
        exact absurd hmem (List.not_mem_nil q)
      have hall : ∀ q ∈ clearOtherDefaults P rest, q.default = false :=
        clearOther_all_false P rest hnone
      rw [setFirstMatchDefault, if_pos hp]
      have hhead : clearOtherDefaults P ({ p with default := true } :: rest) =
          { p with default := true } :: clearOtherDefaults P rest := by
        simp [clearOtherDefaults, hp]
      rw [hhead]
      constructor
      · rw [List.filter_cons]
        simp only [show ({ p with default := true } : ProfileEntry).default = true from rfl,
          if_pos]
        have : (clearOtherDefaults P rest).filter (fun p => p.default) = [] := by
          rw [List.filter_eq_nil_iff]
          intro q hq
          simp [hall q hq]
        simp [this]
      · intro q hq hqd
        rcases List.mem_cons.mp hq with hq1 | hq2
        · rw [hq1]; exact hp
        · exact absurd hqd (by simp [hall q hq2])
    · have hrest : (rest.filter (fun q => q.id == P)).length = 1 := by
        have hbeq : (p.id == P) = false := by simp [hp]
        rwa [List.filter_cons, if_neg (by simp [hbeq])] at h
      obtain ⟨ih1, ih2⟩ := ih hrest
      rw [setFirstMatchDefault, if_neg hp]
      have hhead : clearOtherDefaults P (p :: setFirstMatchDefault P rest) =
          { p with default := false } :: clearOtherDefaults P (setFirstMatchDefault P rest) := by
        simp [clearOtherDefaults, hp]
      rw [hhead]
      constructor
      · rw [List.filter_cons]
        simp only [show ({ p with default := false } : ProfileEntry).default = false from rfl]
        simp [ih1]
      · intro q hq hqd
        rcases List.mem_cons.mp hq with hq1 | hq2
        · rw [hq1] at hqd
          exact absurd hqd (by simp)
        · exact ih2 q hq2 hqd

/-! ## Claim theorems -/

/-- C1: for every extension id and profile collection, a profile whose
`storage/default` listing contains a child entry starting with
`<pfx><extension_id>` for a known storage-key pfx (in particular an entry
literally equal to it) is a match; a profile whose storage directory cannot
be opened is a non-match, not an error; and when the caller supplies no
profile id, resolution returns the id of the FIRST matching profile in
collection order (`List.find?` order). -/
theorem c1_resolution_first_match (parse_ok : String → Bool)
    (fs : ProfileEntry → Option (List String)) (s : AppState)
    (profiles : List ProfileEntry) (extId : String) (ver : Option String) :
    (∀ p entries e pfx, fs p = some entries → e ∈ entries →
        pfx ∈ EXTENSION_STORAGE_PREFIXES →
        rust_starts_with e (pfx ++ extId) = true →
        extInstalled fs extId p = true)
    ∧ (∀ p, fs p = none → extInstalled fs extId p = false)
    ∧ (∀ p, profiles.find? (extInstalled fs extId) = some p →
        ( process_cmd_initialize parse_ok fs s profiles
            ⟨none, extId, ver⟩).response = .success (.Initialized false)
        ∧ ( process_cmd_initialize parse_ok fs s profiles
            ⟨none, extId, ver⟩).state.cur_profile_id = some p.id) := by
  refine ⟨?_, ?_, ?_⟩
  · intro p entries e pfx hfs he hpfx hsw
    unfold extInstalled
    rw [hfs]
    rw [List.any_eq_true]
    exact ⟨e, he, by rw [List.any_eq_true]; exact ⟨pfx, hpfx, hsw⟩⟩
  · intro p hfs
    unfold extInstalled
    rw [hfs]
  · intro p hfind
    have h := initScan_spec parse_ok fs s profiles ⟨none, extId, ver⟩ profiles
    rw [hfind] at h
    constructor
    · show ( process_cmd_initialize parse_ok fs s profiles ⟨none, extId, ver⟩).response = _
      unfold process_cmd_initialize
      rw [h]
    · show ( process_cmd_initialize parse_ok fs s profiles
        ⟨none, extId, ver⟩).state.cur_profile_id = _
      unfold process_cmd_initialize
      rw [h]
      exact finish_init_cur_profile_id parse_ok s profiles p.id extId ver

/-- C1 witness: a concrete two-profile collection in which both profiles
contain an entry literally equal to `moz-extension+++ext1`; resolution
returns the first profile's id. -/
theorem c1_resolution_first_match_witness :
    ( process_cmd_initialize (fun _ => true)
        (fun _ => some ["moz-extension+++ext1"])
        { first_run := false, cur_profile_id := none,
          internal_extension_id := none, extension_version := none }
        [{ id := "P1", name := "one", path := "p1", default := false },
         { id := "P2", name := "two", path := "p2", default := false }]
        ⟨none, "ext1", none⟩).response = .success (.Initialized false)
    ∧ ( process_cmd_initialize (fun _ => true)
        (fun _ => some ["moz-extension+++ext1"])
        { first_run := false, cur_profile_id := none,
          internal_extension_id := none, extension_version := none }
        [{ id := "P1", name := "one", path := "p1", default := false },
         { id := "P2", name := "two", path := "p2", default := false }]
        ⟨none, "ext1", none⟩).state.cur_profile_id = some "P1" :=
  (c1_resolution_first_match (fun _ => true)
      (fun _ => some ["moz-extension+++ext1"])
      { first_run := false, cur_profile_id := none,
        internal_extension_id := none, extension_version := none }
      [{ id := "P1", name := "one", path := "p1", default := false },
       { id := "P2", name := "two", path := "p2", default := false }]
      "ext1" none).2.2
    { id := "P1", name := "one", path := "p1", default := false } (by decide)

/-- C2 counterexample: with two entries sharing the id `"A"` (the second
already carrying `default = true`), first-run initialization for `P = "A"`
sets the first entry's flag but leaves the duplicate untouched, so TWO
entries end up with `default = true` — the claim's "exactly one" fails. -/
theorem c2_counterexample :
    ((finish_init (fun _ => true)
        { first_run := true, cur_profile_id := none,
          internal_extension_id := none, extension_version := none }
        [{ id := "A", name := "a", path := "pa", default := false },
         { id := "A", name := "b", path := "pb", default := true }]
        "A" "ext" none).profiles.filter (fun p => p.default)).length = 2 := by
  decide

/-- C2 (amended): after first-run initialization for profile P, provided
exactly one entry in the collection has id P, exactly one entry has
`default = true` afterwards and every `default = true` entry has id P; the
mutated collection is handed to the persistence collaborator
(`write_profiles`). -/
theorem c2_first_run_unique_default (parse_ok : String → Bool) (s : AppState)
    (profiles : List ProfileEntry) (P eid : String) (ver : Option String)
    (hfr : s.first_run = true)
    (huniq : (profiles.filter (fun p => p.id == P)).length = 1) :
    ((finish_init parse_ok s profiles P eid ver).profiles.filter
        (fun p => p.default)).length = 1
    ∧ (∀ q ∈ (finish_init parse_ok s profiles P eid ver).profiles,
        q.default = true → q.id = P)
    ∧ (finish_init parse_ok s profiles P eid ver).wrote_profiles = true := by
  have hany : profiles.any (fun p => p.id == P) = true := by
    obtain ⟨a, ha⟩ := List.length_eq_one.mp huniq
    have hmem : a ∈ profiles.filter (fun p => p.id == P) := by
      rw [ha]; exact List.mem_singleton.mpr rfl
    rw [List.any_eq_true]
    exact ⟨a, (List.mem_filter.mp hmem).1, (List.mem_filter.mp hmem).2⟩
  have hprof : (finish_init parse_ok s profiles P eid ver).profiles
      = clearOtherDefaults P (setFirstMatchDefault P profiles) := by
    simp [finish_init, hfr, hany]
  have hwrote : (finish_init parse_ok s profiles P eid ver).wrote_profiles = true := by
    simp [finish_init, hfr, hany]
  rw [hprof, hwrote]
  obtain ⟨h1, h2⟩ := uniqueDefault_after P profiles huniq
  exact ⟨h1, h2, rfl⟩

/-- C2 witness: a two-profile collection with distinct ids, first-run
initialization for the second profile; afterwards exactly that profile is
the unique default and the collection is persisted. -/
theorem c2_first_run_unique_default_witness :
    ((finish_init (fun _ => true)
        { first_run := true, cur_profile_id := none,
          internal_extension_id := none, extension_version := none }
        [{ id := "P1", name := "one", path := "p1", default := true },
         { id := "P2", name := "two", path := "p2", default := false }]
        "P2" "ext" none).profiles.filter (fun p => p.default)).length = 1
    ∧ (∀ q ∈ (finish_init (fun _ => true)
        { first_run := true, cur_profile_id := none,
          internal_extension_id := none, extension_version := none }
        [{ id := "P1", name := "one", path := "p1", default := true },
         { id := "P2", name := "two", path := "p2", default := false }]
        "P2" "ext" none).profiles, q.default = true → q.id = "P2")
    ∧ (finish_init (fun _ => true)
        { first_run := true, cur_profile_id := none,
          internal_extension_id := none, extension_version := none }
        [{ id := "P1", name := "one", path := "p1", default := true },
         { id := "P2", name := "two", path := "p2", default := false }]
        "P2" "ext" none).wrote_profiles = true :=
  c2_first_run_unique_default (fun _ => true)
    { first_run := true, cur_profile_id := none,
      internal_extension_id := none, extension_version := none }
    [{ id := "P1", name := "one", path := "p1", default := true },
     { id := "P2", name := "two", path := "p2", default := false }]
    "P2" "ext" none (by decide) (by decide)

/-- C6: when the caller supplies no profile id and no profile's storage
directory matches, initialization returns the error response carrying
exactly "Unable to detect current profile." and leaves the process state,
every profile entry, and the persistence flag untouched. -/
theorem c6_no_match_is_pure_error (parse_ok : String → Bool)
    (fs : ProfileEntry → Option (List String)) (s : AppState)
    (profiles : List ProfileEntry) (extId : String) (ver : Option String)
    (hnone : ∀ p ∈ profiles, extInstalled fs extId p = false) :
    process_cmd_initialize parse_ok fs s profiles ⟨none, extId, ver⟩ =
      { response := .error "Unable to detect current profile.",
        state := s, profiles := profiles, wrote_profiles := false } := by
  have hfind : profiles.find? (extInstalled fs extId) = none :=
    List.find?_eq_none.mpr (fun p hp => by simp [hnone p hp])
  have h := initScan_spec parse_ok fs s profiles ⟨none, extId, ver⟩ profiles
  rw [hfind] at h
  unfold process_cmd_initialize
  exact h

/-- C6 witness: a one-profile collection whose storage directory cannot be
opened; the command returns the fixed error and changes nothing. -/
theorem c6_no_match_is_pure_error_witness :
    process_cmd_initialize (fun _ => true) (fun _ => none)
        { first_run := true, cur_profile_id := none,
          internal_extension_id := none, extension_version := none }
        [{ id := "P1", name := "one", path := "p1", default := false }]
        ⟨none, "ext1", none⟩ =
      { response := .error "Unable to detect current profile.",
        state := ⟨true, none, none, none⟩,
        profiles := [⟨"P1", "one", "p1", false⟩],
        wrote_profiles := false } :=
  c6_no_match_is_pure_error (fun _ => true) (fun _ => none)
    { first_run := true, cur_profile_id := none,
      internal_extension_id := none, extension_version := none }
    [{ id := "P1", name := "one", path := "p1", default := false }]
    "ext1" none (by decide)

/-- C9: on a non-first-run state, completing initialization — directly via
`finish_init` for any profile id, or through `process_cmd_initialize` with
any message — leaves the profile list (in particular every `default` flag)
exactly as it was, and never hands it to the persistence collaborator. -/
theorem c9_non_first_run_frame (parse_ok : String → Bool) (s : AppState)
    (profiles : List ProfileEntry) (pid eid : String) (ver : Option String)
    (h : s.first_run = false) :
    (finish_init parse_ok s profiles pid eid ver).profiles = profiles
    ∧ (finish_init parse_ok s profiles pid eid ver).wrote_profiles = false
    ∧ (∀ (fs : ProfileEntry → Option (List String)) (msg : NativeMessageInitialize),
        ( process_cmd_initialize parse_ok fs s profiles msg).profiles = profiles) := by
  obtain ⟨h1, h2⟩ := finish_init_not_first_run parse_ok s profiles pid eid ver h
  refine ⟨h1, h2, ?_⟩
  intro fs msg
  unfold process_cmd_initialize
  cases hmsg : msg.profile_id with
  | some pid2 =>
    exact (finish_init_not_first_run parse_ok s profiles pid2
      msg.extension_id msg.extension_version h).1
  | none =>
    rw [initScan_spec]
    cases hfind : profiles.find? (extInstalled fs msg.extension_id) with
    | some p =>
      exact (finish_init_not_first_run parse_ok s profiles p.id
        msg.extension_id msg.extension_version h).1
    | none => rfl

/-- C9 witness: a non-first-run state; initialization for a profile id
different from the current one leaves the default flags in place. -/
theorem c9_non_first_run_frame_witness :
    (finish_init (fun _ => true) ⟨false, some "P1", none, none⟩
        [⟨"P1", "one", "p1", true⟩, ⟨"P2", "two", "p2", false⟩]
        "P2" "ext" none).profiles
      = [⟨"P1", "one", "p1", true⟩, ⟨"P2", "two", "p2", false⟩]
    ∧ (finish_init (fun _ => true) ⟨false, some "P1", none, none⟩
        [⟨"P1", "one", "p1", true⟩, ⟨"P2", "two", "p2", false⟩]
        "P2" "ext" none).wrote_profiles = false
    ∧ ∀ (fs : ProfileEntry → Option (List String)) (msg : NativeMessageInitialize),
        ( process_cmd_initialize (fun _ => true) fs ⟨false, some "P1", none, none⟩
          [⟨"P1", "one", "p1", true⟩, ⟨"P2", "two", "p2", false⟩] msg).profiles
          = [⟨"P1", "one", "p1", true⟩, ⟨"P2", "two", "p2", false⟩] :=
  c9_non_first_run_frame (fun _ => true) ⟨false, some "P1", none, none⟩
    [⟨"P1", "one", "p1", true⟩, ⟨"P2", "two", "p2", false⟩]
    "P2" "ext" none (by decide)

/-- C10: on a first-run state, initialization with a caller-supplied profile
id that matches no entry still records that id as current and clears
`first_run`, but mutates no `default` flag and performs no persistence; and
because `first_run` is now cleared, no later `finish_init` on the resulting
state can mutate or persist a profile list. -/
theorem c10_first_run_unknown_id (parse_ok : String → Bool) (s : AppState)
    (profiles : List ProfileEntry) (P eid : String) (ver : Option String)
    (hfr : s.first_run = true)
    (habs : ∀ p ∈ profiles, p.id ≠ P) :
    (finish_init parse_ok s profiles P eid ver).state.cur_profile_id = some P
    ∧ (finish_init parse_ok s profiles P eid ver).state.first_run = false
    ∧ (finish_init parse_ok s profiles P eid ver).profiles = profiles
    ∧ (finish_init parse_ok s profiles P eid ver).wrote_profiles = false
    ∧ ∀ (parse_ok2 : String → Bool) (profiles2 : List ProfileEntry)
        (P2 eid2 : String) (ver2 : Option String),
        (finish_init parse_ok2 (finish_init parse_ok s profiles P eid ver).state
            profiles2 P2 eid2 ver2).profiles = profiles2
        ∧ (finish_init parse_ok2 (finish_init parse_ok s profiles P eid ver).state
            profiles2 P2 eid2 ver2).wrote_profiles = false := by
  have hany : profiles.any (fun p => p.id == P) = false := by
    rw [List.any_eq_false]
    intro p hp
    simp [habs p hp]
  have hfi : finish_init parse_ok s profiles P eid ver =
      ⟨⟨false, some P, some eid,
          ver.bind (fun v => if parse_ok v then some v else none)⟩,
        profiles, false⟩ := by
    simp [finish_init, hfr, hany]
  refine ⟨by rw [hfi], by rw [hfi], by rw [hfi], by rw [hfi], ?_⟩
  intro parse_ok2 profiles2 P2 eid2 ver2
  apply finish_init_not_first_run
  rw [hfi]

/-- C10 witness: first-run state, caller-supplied id "GHOST" matching
neither profile; the id is recorded, first_run cleared, defaults untouched,
nothing persisted. -/
theorem c10_first_run_unknown_id_witness :
    (finish_init (fun _ => true) ⟨true, none, none, none⟩
        [⟨"P1", "one", "p1", true⟩] "GHOST" "ext" none).state.cur_profile_id
      = some "GHOST"
    ∧ (finish_init (fun _ => true) ⟨true, none, none, none⟩
        [⟨"P1", "one", "p1", true⟩] "GHOST" "ext" none).state.first_run = false
    ∧ (finish_init (fun _ => true) ⟨true, none, none, none⟩
        [⟨"P1", "one", "p1", true⟩] "GHOST" "ext" none).profiles
      = [⟨"P1", "one", "p1", true⟩]
    ∧ (finish_init (fun _ => true) ⟨true, none, none, none⟩
        [⟨"P1", "one", "p1", true⟩] "GHOST" "ext" none).wrote_profiles = false
    ∧ ∀ (parse_ok2 : String → Bool) (profiles2 : List ProfileEntry)
        (P2 eid2 : String) (ver2 : Option String),
        (finish_init parse_ok2 (finish_init (fun _ => true) ⟨true, none, none, none⟩
            [⟨"P1", "one", "p1", true⟩] "GHOST" "ext" none).state
            profiles2 P2 eid2 ver2).profiles = profiles2
        ∧ (finish_init parse_ok2 (finish_init (fun _ => true) ⟨true, none, none, none⟩
            [⟨"P1", "one", "p1", true⟩] "GHOST" "ext" none).state
            profiles2 P2 eid2 ver2).wrote_profiles = false :=
  c10_first_run_unknown_id (fun _ => true) ⟨true, none, none, none⟩
    [⟨"P1", "one", "p1", true⟩] "GHOST" "ext" none (by decide) (by decide)

/-- C3: when an explicit browser binary path is configured, binary selection
returns it for EVERY filesystem state (in particular when the path does not
exist — no existence check at selection time) without consulting the parent
process inspector or the well-known table; the inspector is consulted only
when no path is configured, and the well-known table only when the inspector
also failed. -/
theorem c3_binary_precedence (b : String)
    (pp : Except GetParentProcError String) (fsExists : String → Bool) :
    selectBinary (some b) pp fsExists = some b
    ∧ (∀ v, selectBinary none (.ok v) fsExists = some v)
    ∧ (∀ e, selectBinary none (.error e) fsExists = find_browser_binary fsExists) :=
  ⟨rfl, fun _ => rfl, fun _ => rfl⟩

/-- C4: when the selected binary does not exist on disk, the launcher
re-runs only the well-known-table discovery: a hit is an existing path and
the launch proceeds with it (the outcome is the launch on the alternative,
never `BinaryNotFound`); no hit means `BinaryDoesNotExist`, an error kind
distinct from `BinaryNotFound`. -/
theorem c4_missing_binary_fallback (cfgBinary : Option String)
    (pp : Except GetParentProcError String) (fsExists : String → Bool)
    (launch : String → List String → Except ForkBrowserProcError Unit)
    (profile_name : String) (url : Option String) (b : String)
    (hsel : selectBinary cfgBinary pp fsExists = some b)
    (hne : fsExists b = false) :
    (∀ alt, find_browser_binary fsExists = some alt →
        fsExists alt = true
        ∧ fork_browser_proc cfgBinary pp fsExists launch profile_name url
            = launch alt (build_browser_args profile_name url))
    ∧ (find_browser_binary fsExists = none →
        fork_browser_proc cfgBinary pp fsExists launch profile_name url
          = .error .BinaryDoesNotExist)
    ∧ ForkBrowserProcError.BinaryDoesNotExist ≠ ForkBrowserProcError.BinaryNotFound := by
  refine ⟨?_, ?_, by simp⟩
  · intro alt hfind
    have hex : fsExists alt = true := find_browser_binary_exists fsExists alt hfind
    refine ⟨hex, ?_⟩
    unfold fork_browser_proc
    rw [hsel]
    simp [hne, hfind, hex]
  · intro hfind
    unfold fork_browser_proc
    rw [hsel]
    simp [hne, hfind]

/-- C4 witness: configured path `/missing/firefox` does not exist, the
well-known table finds `/usr/bin/firefox`; the launch proceeds with the
alternative. -/
theorem c4_missing_binary_fallback_witness :
    (fun s => s == "/usr/bin/firefox") "/usr/bin/firefox" = true
    ∧ fork_browser_proc (some "/missing/firefox") (.error .LinuxCouldNotFindPPid)
        (fun s => s == "/usr/bin/firefox") (fun _ _ => .ok ()) "prof" none
      = (fun (_ : String) (_ : List String) =>
          (.ok () : Except ForkBrowserProcError Unit)) "/usr/bin/firefox"
          (build_browser_args "prof" none) :=
  (c4_missing_binary_fallback (some "/missing/firefox")
      (.error .LinuxCouldNotFindPPid) (fun s => s == "/usr/bin/firefox")
      (fun _ _ => .ok ()) "prof" none "/missing/firefox"
      (by decide) (by decide)).1 "/usr/bin/firefox" (by decide)

/-- C5: in the POSIX strategy the original process classifies only the
immediate child's wait outcome: the launch succeeds exactly when the wait
reports exit code 0; every other wait outcome (non-zero exit, signal, stop,
still-alive, or a waitpid error) yields `BadExitCode`; a failed fork yields
`ForkError`.  The immediate child's own exit code is 0 on success, 1 on
spawn failure, 2 on setsid failure. -/
theorem c5_posix_exit_mapping (w : Except String WaitStatus) :
    (launch_browser_process (.parentWaited w) = .ok ()
      ↔ ∃ pid, w = .ok (.Exited pid 0))
    ∧ ((¬ ∃ pid, w = .ok (.Exited pid 0)) →
        launch_browser_process (.parentWaited w) = .error .BadExitCode)
    ∧ (∀ e, launch_browser_process (.forkFailed e) = .error (.ForkError e))
    ∧ childExitCode true true = 0
    ∧ childExitCode true false = 1
    ∧ childExitCode false true = 2 := by
  refine ⟨?_, ?_, fun _ => rfl, rfl, rfl, rfl⟩
  · constructor
    · intro h
      cases w with
      | error e => exact absurd h (by simp [launch_browser_process])
      | ok ws =>
        cases ws with
        | Exited pid code =>
          by_cases hc : code = 0
          · exact ⟨pid, by rw [hc]⟩
          · exact absurd h (by simp [launch_browser_process, hc])
        | Signaled pid sig cd => exact absurd h (by simp [launch_browser_process])
        | Stopped pid sig => exact absurd h (by simp [launch_browser_process])
        | Continued pid => exact absurd h (by simp [launch_browser_process])
        | StillAlive => exact absurd h (by simp [launch_browser_process])
    · rintro ⟨pid, rfl⟩
      rfl
  · intro h
    cases w with
    | error e => rfl
    | ok ws =>
      cases ws with
      | Exited pid code =>
        by_cases hc : code = 0
        · exact absurd ⟨pid, by rw [hc]⟩ h
        · simp [launch_browser_process, hc]
      | Signaled pid sig cd => rfl
      | Stopped pid sig => rfl
      | Continued pid => rfl
      | StillAlive => rfl

/-- C5 witness: exit code 0 of the immediate child succeeds; a waitpid error
maps to `BadExitCode`. -/
theorem c5_posix_exit_mapping_witness :
    launch_browser_process (.parentWaited (.ok (.Exited 7 0))) = .ok ()
    ∧ launch_browser_process (.parentWaited (.error "EINTR"))
        = .error .BadExitCode :=
  ⟨(c5_posix_exit_mapping (.ok (.Exited 7 0))).1.mpr ⟨7, rfl⟩,
   (c5_posix_exit_mapping (.error "EINTR")).2.1 (by simp)⟩

/-- C7 counterexample: with the crash-reporter variable SET to a path that
does not exist and a well-known search that yields nothing, the inspection
surfaces the original successful lookup (`Ok` of the non-existing path) —
NOT an environment-variable lookup error as the claim states. -/
theorem c7_counterexample :
    PARENT_PROC (.ok "/nonexistent/firefox") (fun _ => false)
      = .ok "/nonexistent/firefox"
    ∧ (fun (_ : String) => false) "/nonexistent/firefox" = false
    ∧ find_browser_binary (fun _ => false) = none
    ∧ isOkResult (PARENT_PROC (.ok "/nonexistent/firefox") (fun _ => false)) = true := by
  refine ⟨rfl, rfl, rfl, rfl⟩

/-- C7 (amended): the inspection reads the crash-reporter variable as a
path.  If the variable is set and the path exists, that path is returned.
Otherwise the well-known-location search is tried; if it hits, its result is
returned.  If it also yields nothing, the ORIGINAL lookup result is
surfaced: the lookup error when the variable was unset, but the (possibly
non-existing) path as a success when the variable was set. -/
theorem c7_crash_reporter_fallback (envVar : Except VarError String)
    (fsExists : String → Bool) :
    (∀ e, envVar = .error e →
      PARENT_PROC envVar fsExists =
        (match find_browser_binary fsExists with
         | some browser_path => .ok browser_path
         | none => .error (.NoCrashReporterEnvVar e)))
    ∧ (∀ path, envVar = .ok path → fsExists path = false →
      PARENT_PROC envVar fsExists =
        (match find_browser_binary fsExists with
         | some browser_path => .ok browser_path
         | none => .ok path))
    ∧ (∀ path, envVar = .ok path → fsExists path = true →
      PARENT_PROC envVar fsExists = .ok path) := by
  refine ⟨?_, ?_, ?_⟩
  · rintro e rfl
    unfold PARENT_PROC
    cases find_browser_binary fsExists <;> rfl
  · rintro path rfl hne
    unfold PARENT_PROC
    simp only [hne]
    cases find_browser_binary fsExists <;> simp
  · rintro path rfl hex
    unfold PARENT_PROC
    simp [hex]

/-- C7 witness: variable unset, empty filesystem — the surfaced result is
the original environment-variable lookup error. -/
theorem c7_crash_reporter_fallback_witness :
    PARENT_PROC (.error .NotPresent) (fun _ => false)
      = .error (.NoCrashReporterEnvVar .NotPresent) := by
  have h := (c7_crash_reporter_fallback (.error .NotPresent) (fun _ => false)).1
    .NotPresent rfl
  rwa [show find_browser_binary (fun _ => false) = none from rfl] at h

/-- C8: the packaged-activation argument quoting (wrap in double quotes,
triple each literal double quote) is reversible for EVERY argument string:
stripping the surrounding quotes and collapsing each triple quote recovers
exactly the original, so in particular every argument produced by
`build_browser_args` (the profile name included, quotes and all) reaches the
activated process intact. -/
theorem c8_quoting_round_trip (a : String) :
    decodeActivationArg (quoteActivationArg a) = a := by
  unfold decodeActivationArg quoteActivationArg
  show String.mk (unescapeQuotes ((('"' :: (escapeQuotes a.data ++ ['"'])).drop 1).dropLast)) = a
  rw [List.drop_one, List.tail_cons, List.dropLast_concat,
    unescapeQuotes_escapeQuotes]
